import Mathlib

/-!
Verification of the observation-point state subsystem of the OFF wake
simulator (`off/observation_points.py`, `off/windfarm.py`).

The state tables are numpy float arrays; they are embedded as real-valued
matrices `Fin N → Fin W → ℝ` with `N` the chain length and `W` the state
width (4 or 6 per variant).  The `States` base class and `OFFTools.deg2rad`
live in files outside the visible fragment, so they are modelled from the
spec where needed.
-/

namespace OFF

/-- Modelled from the spec: `OFFTools.deg2rad` from `off/utils.py` (not in
the visible fragment) converts degrees to radians. -/
noncomputable def deg2rad (d : ℝ) : ℝ := d * Real.pi / 180

/-- A numpy 2-d array: an explicit shape together with the entries. -/
structure NdTable where
  rows : ℕ
  cols : ℕ
  entry : Fin rows → Fin cols → ℝ

/-- Modelled from the spec: the `States` base class from `off/states.py`
(not in the visible fragment).  Its initializer stores the chain length
`n_time_steps`, the state width `n_states`, and the N×W state table
`states`; these are the only attributes it defines. -/
structure States where
  n_time_steps : ℕ
  n_states : ℕ
  states : Fin n_time_steps → Fin n_states → ℝ

/-- Modelled from the spec: `States.set_all_states` replaces the whole
table after validating the exact N×W shape; on a shape mismatch it fails
immediately with no partial mutation.  The returned pair is the state
object after the call together with `some` error message on failure. -/
def States.set_all_states (s : States) (tbl : NdTable) : States × Option String :=
  if h : tbl.rows = s.n_time_steps ∧ tbl.cols = s.n_states then
    ({ n_time_steps := s.n_time_steps
       n_states := s.n_states
       states := fun i j => tbl.entry (Fin.cast h.1.symm i) (Fin.cast h.2.symm j) }, none)
  else
    (s, some "shape mismatch")

/-- `FLORIDynOPs4`: the 4-state observation-point chain, states
[x, y, z, downstream distance].  The chain length `N` is
`number_of_time_steps`; the base-class initializer makes the table N×4. -/
structure FLORIDynOPs4 (N : ℕ) where
  states : Fin N → Fin 4 → ℝ

/-- `FLORIDynOPs4.get_world_coord`: `return self.states[:, 0:3]`. -/
def FLORIDynOPs4.get_world_coord (ops : FLORIDynOPs4 N) : Fin N → Fin 3 → ℝ :=
  fun i j => ops.states i ⟨j.val, by omega⟩

/-- `FLORIDynOPs4.init_all_states`.  The source builds
`dw = np.arange(self.n_time_steps) * wind_speed` and then assigns the four
columns in place:
column 0 gets `cos(deg2rad(wind_direction)) * dw + rotor_pos[0]`,
column 1 gets `sin(deg2rad(wind_direction)) * dw + rotor_pos[1]`,
column 2 gets `rotor_pos[2]`, column 3 gets `dw`.
The `time_step` argument is accepted but never read. -/
noncomputable def FLORIDynOPs4.init_all_states (ops : FLORIDynOPs4 N)
    (wind_speed wind_direction : ℝ) (rotor_pos : Fin 3 → ℝ) (time_step : ℝ) :
    FLORIDynOPs4 N :=
  { states := fun i j =>
      let dw : ℝ := (i : ℕ) * wind_speed
      if j.val = 0 then Real.cos (deg2rad wind_direction) * dw + rotor_pos 0
      else if j.val = 1 then Real.sin (deg2rad wind_direction) * dw + rotor_pos 1
      else if j.val = 2 then rotor_pos 2
      else dw }

/-- `FLORIDynOPs6`: the 6-state observation-point chain, states
[x, y, z, wake-x, wake-y, wake-z].  The base-class initializer makes the
table N×6. -/
structure FLORIDynOPs6 (N : ℕ) where
  states : Fin N → Fin 6 → ℝ

/-- The `self.op_list` attribute lookup performed by
`FLORIDynOPs6.get_world_coord`.  Neither the `States` base class (which,
per the spec, stores only the dimensions and the `states` table) nor any
method in `observation_points.py` ever assigns an attribute named
`op_list`, so the lookup finds nothing (a Python `AttributeError`). -/
def FLORIDynOPs6.op_list (ops : FLORIDynOPs6 N) : Option (Fin N → Fin 6 → ℝ) :=
  none

/-- `FLORIDynOPs6.get_world_coord`: `return self.op_list[:, 0:3]` — slice
the first three columns of whatever the `op_list` attribute lookup
yields. -/
def FLORIDynOPs6.get_world_coord (ops : FLORIDynOPs6 N) :
    Option (Fin N → Fin 3 → ℝ) :=
  ops.op_list.map (fun t i j => t i ⟨j.val, by omega⟩)

/-- `FLORIDynOPs6.init_all_states`.  Identical assignments to the 4-state
variant into columns 0–3 of the 6-wide table; columns 4 and 5 are never
assigned, so they keep their previous values.  `time_step` is accepted but
never read. -/
noncomputable def FLORIDynOPs6.init_all_states (ops : FLORIDynOPs6 N)
    (wind_speed wind_direction : ℝ) (rotor_pos : Fin 3 → ℝ) (time_step : ℝ) :
    FLORIDynOPs6 N :=
  { states := fun i j =>
      let dw : ℝ := (i : ℕ) * wind_speed
      if j.val = 0 then Real.cos (deg2rad wind_direction) * dw + rotor_pos 0
      else if j.val = 1 then Real.sin (deg2rad wind_direction) * dw + rotor_pos 1
      else if j.val = 2 then rotor_pos 2
      else if j.val = 3 then dw
      else ops.states i j }

/-- `WindFarm` from `off/windfarm.py`, polymorphic in the turbine type
(`off/turbine.py` is outside the visible fragment) and in the type of the
solver-setting values.  The class attribute `time_step = -1` is the unset
sentinel an instance reads until the driver assigns it. -/
structure WindFarm (Turbine : Type) (Setting : Type) where
  turbines : List Turbine
  settings_sol : List (String × Setting)
  time_step : ℤ

/-- `WindFarm.__init__`: stores the turbine list and the solver settings;
`time_step` is left at the class-attribute sentinel `-1`. -/
def WindFarm.init (turbines : List Turbine)
    (settings_sol : List (String × Setting)) : WindFarm Turbine Setting :=
  { turbines := turbines
    settings_sol := settings_sol
    time_step := -1 }

/-- Numeric value of the column-index literal 1 (width 4). -/
theorem fin4_val1 : ((1 : Fin 4) : ℕ) = 1 := rfl

/-- Numeric value of the column-index literal 2 (width 4). -/
theorem fin4_val2 : ((2 : Fin 4) : ℕ) = 2 := rfl

/-- Numeric value of the column-index literal 3 (width 4). -/
theorem fin4_val3 : ((3 : Fin 4) : ℕ) = 3 := rfl

/-- Numeric value of the column-index literal 1 (width 6). -/
theorem fin6_val1 : ((1 : Fin 6) : ℕ) = 1 := rfl

/-- Numeric value of the column-index literal 2 (width 6). -/
theorem fin6_val2 : ((2 : Fin 6) : ℕ) = 2 := rfl

/-- Numeric value of the column-index literal 3 (width 6). -/
theorem fin6_val3 : ((3 : Fin 6) : ℕ) = 3 := rfl

/-- Numeric value of the column-index literal 4 (width 6). -/
theorem fin6_val4 : ((4 : Fin 6) : ℕ) = 4 := rfl

/-- Numeric value of the column-index literal 5 (width 6). -/
theorem fin6_val5 : ((5 : Fin 6) : ℕ) = 5 := rfl

/-- C1.  The 4-state variant honours the `get_world_coord` contract
(shape N×3, values equal columns 0–2 of the state table), but the 6-state
variant has `get_world_coord` read the never-assigned attribute `op_list`
and therefore fails on every instance instead of returning columns 0–2 of
its state table. -/
theorem C1_get_world_coord :
    (∀ (N : ℕ) (ops : FLORIDynOPs4 N) (i : Fin N) (j : Fin 3),
        ops.get_world_coord i j = ops.states i ⟨j.val, by omega⟩) ∧
    (∀ (N : ℕ) (ops : FLORIDynOPs6 N), ops.get_world_coord = none) :=
  ⟨fun _ _ _ _ => rfl, fun _ _ => rfl⟩

/-- C6.  For both variants, `init_all_states` never reads its `time_step`
argument: two calls differing only in `time_step` produce identical state
tables. -/
theorem C6_time_step_independent (N : ℕ) (ops4 : FLORIDynOPs4 N)
    (ops6 : FLORIDynOPs6 N) (ws wd : ℝ) (rp : Fin 3 → ℝ) (t1 t2 : ℝ) :
    ops4.init_all_states ws wd rp t1 = ops4.init_all_states ws wd rp t2 ∧
    ops6.init_all_states ws wd rp t1 = ops6.init_all_states ws wd rp t2 :=
  ⟨rfl, rfl⟩

/-- C7.  `init_all_states` is idempotent for both variants: calling it a
second time with the same arguments leaves the table produced by the first
call unchanged. -/
theorem C7_init_idempotent (N : ℕ) (ops4 : FLORIDynOPs4 N)
    (ops6 : FLORIDynOPs6 N) (ws wd : ℝ) (rp : Fin 3 → ℝ) (ts : ℝ) :
    (ops4.init_all_states ws wd rp ts).init_all_states ws wd rp ts =
      ops4.init_all_states ws wd rp ts ∧
    (ops6.init_all_states ws wd rp ts).init_all_states ws wd rp ts =
      ops6.init_all_states ws wd rp ts := by
  refine ⟨rfl, ?_⟩
  unfold FLORIDynOPs6.init_all_states
  simp only [FLORIDynOPs6.mk.injEq]
  funext i j
  by_cases h0 : j.val = 0
  · simp [h0]
  by_cases h1 : j.val = 1
  · simp [h0, h1]
  by_cases h2 : j.val = 2
  · simp [h0, h1, h2]
  by_cases h3 : j.val = 3
  · simp [h0, h1, h2, h3]
  · simp [h0, h1, h2, h3]

/-- C2 counterexample.  `FLORIDynOPs6.init_all_states` does modify column
3: on a length-1 chain whose table is constantly 7, after
`init_all_states 1 0 (0,0,0) 1` the entry in column 3 is 0, not 7. -/
theorem C2_cex_init6_writes_column3 :
    ((⟨fun _ _ => 7⟩ : FLORIDynOPs6 1).init_all_states 1 0 (fun _ => 0) 1).states 0 3 ≠
      (⟨fun _ _ => 7⟩ : FLORIDynOPs6 1).states 0 3 := by
  unfold FLORIDynOPs6.init_all_states
  norm_num [fin6_val3]

/-- C2 amended.  For the 6-state variant, `init_all_states` leaves columns
4 and 5 unmodified; it writes columns 0, 1, 2 and also column 3, which
receives the downstream-distance ramp `i * wind_speed`. -/
theorem C2_init6_untouched_columns (N : ℕ) (ops : FLORIDynOPs6 N)
    (ws wd : ℝ) (rp : Fin 3 → ℝ) (ts : ℝ) :
    ∀ i : Fin N,
      (ops.init_all_states ws wd rp ts).states i 4 = ops.states i 4 ∧
      (ops.init_all_states ws wd rp ts).states i 5 = ops.states i 5 ∧
      (ops.init_all_states ws wd rp ts).states i 3 = (i : ℕ) * ws := by
  intro i
  unfold FLORIDynOPs6.init_all_states
  norm_num [fin6_val3, fin6_val4, fin6_val5]

/-- C3.  Concrete scenario on a 4-state chain of length 5: after
`init_all_states 8 0 (100,200,50) 1`, column 0 is [100,108,116,124,132],
column 1 is constantly 200, column 2 is constantly 50 and column 3 is
[0,8,16,24,32]. -/
theorem C3_init4_scenario :
    ∀ i : Fin 5,
      ((⟨fun _ _ => 0⟩ : FLORIDynOPs4 5).init_all_states 8 0 ![100, 200, 50] 1).states i 0 =
        ![100, 108, 116, 124, 132] i ∧
      ((⟨fun _ _ => 0⟩ : FLORIDynOPs4 5).init_all_states 8 0 ![100, 200, 50] 1).states i 1 = 200 ∧
      ((⟨fun _ _ => 0⟩ : FLORIDynOPs4 5).init_all_states 8 0 ![100, 200, 50] 1).states i 2 = 50 ∧
      ((⟨fun _ _ => 0⟩ : FLORIDynOPs4 5).init_all_states 8 0 ![100, 200, 50] 1).states i 3 =
        ![0, 8, 16, 24, 32] i := by
  intro i
  unfold FLORIDynOPs4.init_all_states
  have hd : deg2rad 0 = 0 := by simp [deg2rad]
  fin_cases i <;>
    norm_num [hd, fin4_val1, fin4_val2, fin4_val3, Matrix.cons_val_one, Matrix.head_cons]

/-- C4.  For the 4-state variant, after `init_all_states` the
downstream-distance column satisfies `distance[i] = i * wind_speed` for
every index, hence `distance[0] = 0` and consecutive entries differ by
exactly `wind_speed`. -/
theorem C4_init4_ramp (N : ℕ) (hN : 0 < N) (ops : FLORIDynOPs4 N)
    (ws wd : ℝ) (rp : Fin 3 → ℝ) (ts : ℝ) :
    (ops.init_all_states ws wd rp ts).states ⟨0, hN⟩ 3 = 0 ∧
    (∀ (i : ℕ) (h : i + 1 < N),
      (ops.init_all_states ws wd rp ts).states ⟨i + 1, h⟩ 3 -
        (ops.init_all_states ws wd rp ts).states ⟨i, by omega⟩ 3 = ws) ∧
    ∀ i : Fin N, (ops.init_all_states ws wd rp ts).states i 3 = (i : ℕ) * ws := by
  have hcol : ∀ i : Fin N,
      (ops.init_all_states ws wd rp ts).states i 3 = (i : ℕ) * ws := by
    intro i
    unfold FLORIDynOPs4.init_all_states
    norm_num [fin4_val3]
  refine ⟨?_, ?_, hcol⟩
  · rw [hcol ⟨0, hN⟩]
    norm_num
  · intro i h
    rw [hcol ⟨i + 1, h⟩, hcol ⟨i, by omega⟩]
    push_cast
    ring

/-- C4 witness: the ramp theorem evaluated on a length-3 chain with
wind speed 2. -/
theorem C4_init4_ramp_witness :
    0 < 3 ∧
    ((⟨fun _ _ => 0⟩ : FLORIDynOPs4 3).init_all_states 2 0 (fun _ => 0) 1).states ⟨0, by norm_num⟩ 3 = 0 ∧
    (∀ (i : ℕ) (h : i + 1 < 3),
      ((⟨fun _ _ => 0⟩ : FLORIDynOPs4 3).init_all_states 2 0 (fun _ => 0) 1).states ⟨i + 1, h⟩ 3 -
        ((⟨fun _ _ => 0⟩ : FLORIDynOPs4 3).init_all_states 2 0 (fun _ => 0) 1).states ⟨i, by omega⟩ 3 = 2) ∧
    ∀ i : Fin 3,
      ((⟨fun _ _ => 0⟩ : FLORIDynOPs4 3).init_all_states 2 0 (fun _ => 0) 1).states i 3 = (i : ℕ) * 2 :=
  ⟨by norm_num, C4_init4_ramp 3 (by norm_num) ⟨fun _ _ => 0⟩ 2 0 (fun _ => 0) 1⟩

/-- C5.  After `init_all_states` with positive wind speed on either
variant: for wind direction 0° every OP has its y-coordinate equal to
`rotor_pos.y` and the x-coordinates strictly increase along the chain; for
wind direction 90° every OP has its x-coordinate equal to `rotor_pos.x`
and the y-coordinates strictly increase; and in every case the
z-coordinates equal `rotor_pos.z`. -/
theorem C5_direction_height (N : ℕ) (ops4 : FLORIDynOPs4 N)
    (ops6 : FLORIDynOPs6 N) (ws : ℝ) (hws : 0 < ws) (wd : ℝ)
    (rp : Fin 3 → ℝ) (ts : ℝ) :
    (wd = 0 →
      (∀ i : Fin N, (ops4.init_all_states ws wd rp ts).states i 1 = rp 1 ∧
          (ops6.init_all_states ws wd rp ts).states i 1 = rp 1) ∧
      StrictMono (fun i : Fin N => (ops4.init_all_states ws wd rp ts).states i 0) ∧
      StrictMono (fun i : Fin N => (ops6.init_all_states ws wd rp ts).states i 0)) ∧
    (wd = 90 →
      (∀ i : Fin N, (ops4.init_all_states ws wd rp ts).states i 0 = rp 0 ∧
          (ops6.init_all_states ws wd rp ts).states i 0 = rp 0) ∧
      StrictMono (fun i : Fin N => (ops4.init_all_states ws wd rp ts).states i 1) ∧
      StrictMono (fun i : Fin N => (ops6.init_all_states ws wd rp ts).states i 1)) ∧
    (∀ i : Fin N, (ops4.init_all_states ws wd rp ts).states i 2 = rp 2 ∧
        (ops6.init_all_states ws wd rp ts).states i 2 = rp 2) := by
  have hmono : ∀ a b : Fin N, a < b → ((a : ℕ) : ℝ) * ws < ((b : ℕ) : ℝ) * ws := by
    intro a b hab
    have h : ((a : ℕ) : ℝ) < ((b : ℕ) : ℝ) := by
      exact_mod_cast Fin.lt_def.mp hab
    exact mul_lt_mul_of_pos_right h hws
  refine ⟨?_, ?_, ?_⟩
  · rintro rfl
    have hd : deg2rad 0 = 0 := by simp [deg2rad]
    refine ⟨fun i => ?_, ?_, ?_⟩
    · constructor
      · unfold FLORIDynOPs4.init_all_states
        simp [hd, fin4_val1]
      · unfold FLORIDynOPs6.init_all_states
        simp [hd, fin6_val1]
    · intro a b hab
      unfold FLORIDynOPs4.init_all_states
      simp only [hd, Real.cos_zero, one_mul]
      simpa using add_lt_add_right (hmono a b hab) (rp 0)
    · intro a b hab
      unfold FLORIDynOPs6.init_all_states
      simp only [hd, Real.cos_zero, one_mul]
      simpa using add_lt_add_right (hmono a b hab) (rp 0)
  · rintro rfl
    have hd : deg2rad 90 = Real.pi / 2 := by
      unfold deg2rad
      ring
    refine ⟨fun i => ?_, ?_, ?_⟩
    · constructor
      · unfold FLORIDynOPs4.init_all_states
        simp [hd]
      · unfold FLORIDynOPs6.init_all_states
        simp [hd]
    · intro a b hab
      unfold FLORIDynOPs4.init_all_states
      simp only [hd, Real.sin_pi_div_two, one_mul, fin4_val1]
      simpa [fin4_val1] using add_lt_add_right (hmono a b hab) (rp 1)
    · intro a b hab
      unfold FLORIDynOPs6.init_all_states
      simp only [hd, Real.sin_pi_div_two, one_mul, fin6_val1]
      simpa [fin6_val1] using add_lt_add_right (hmono a b hab) (rp 1)
  · intro i
    constructor
    · unfold FLORIDynOPs4.init_all_states
      simp [fin4_val2]
    · unfold FLORIDynOPs6.init_all_states
      simp [fin6_val2]

/-- C5 witness: the direction/height theorem applied to length-2 chains
with wind speed 1 and direction 0°; the height conjunct is read off at
index 0. -/
theorem C5_direction_height_witness :
    0 < (1 : ℝ) ∧
    ((⟨fun _ _ => 0⟩ : FLORIDynOPs4 2).init_all_states 1 0 (fun _ => 0) 1).states 0 2 =
      (fun _ : Fin 3 => (0 : ℝ)) 2 :=
  ⟨by norm_num,
    ((C5_direction_height 2 ⟨fun _ _ => 0⟩ ⟨fun _ _ => 0⟩ 1 (by norm_num) 0
        (fun _ => 0) 1).2.2 0).1⟩

/-- C8.  `set_all_states` with a table whose shape is not exactly N×W (in
particular N×(W+1)) fails with an error and leaves the state object
unchanged. -/
theorem C8_set_all_states_shape_mismatch (s : States) (tbl : NdTable)
    (h : ¬(tbl.rows = s.n_time_steps ∧ tbl.cols = s.n_states)) :
    (s.set_all_states tbl).1 = s ∧ ((s.set_all_states tbl).2).isSome := by
  unfold States.set_all_states
  rw [dif_neg h]
  exact ⟨rfl, rfl⟩

/-- C8 witness: a 1×4 state object rejects a 1×5 table and is left
unchanged. -/
theorem C8_set_all_states_shape_mismatch_witness :
    ¬((1 : ℕ) = 1 ∧ (5 : ℕ) = 4) ∧
    ((⟨1, 4, fun _ _ => 0⟩ : States).set_all_states ⟨1, 5, fun _ _ => 0⟩).1 =
      ⟨1, 4, fun _ _ => 0⟩ ∧
    (((⟨1, 4, fun _ _ => 0⟩ : States).set_all_states ⟨1, 5, fun _ _ => 0⟩).2).isSome :=
  ⟨by norm_num,
    (C8_set_all_states_shape_mismatch ⟨1, 4, fun _ _ => 0⟩ ⟨1, 5, fun _ _ => 0⟩
        (by norm_num)).1,
    (C8_set_all_states_shape_mismatch ⟨1, 4, fun _ _ => 0⟩ ⟨1, 5, fun _ _ => 0⟩
        (by norm_num)).2⟩

/-- C9.  `WindFarm.__init__` stores exactly the given turbine list and
solver-settings mapping, and the current-time-step counter is the unset
sentinel `-1`. -/
theorem C9_windfarm_init {T S : Type} (turbines : List T)
    (settings : List (String × S)) :
    (WindFarm.init turbines settings).turbines = turbines ∧
    (WindFarm.init turbines settings).settings_sol = settings ∧
    (WindFarm.init turbines settings).time_step = -1 :=
  ⟨rfl, rfl, rfl⟩

/-- C10.  On chains of the same length and for the same arguments, the two
variants make `init_all_states` write identical values into columns 0–3. -/
theorem C10_variants_agree (N : ℕ) (ops4 : FLORIDynOPs4 N)
    (ops6 : FLORIDynOPs6 N) (ws wd : ℝ) (rp : Fin 3 → ℝ) (ts : ℝ) :
    ∀ (i : Fin N) (j : Fin 4),
      (ops4.init_all_states ws wd rp ts).states i j =
        (ops6.init_all_states ws wd rp ts).states i ⟨j.val, by omega⟩ := by
  intro i j
  unfold FLORIDynOPs4.init_all_states FLORIDynOPs6.init_all_states
  by_cases h0 : j.val = 0
  · simp [h0]
  by_cases h1 : j.val = 1
  · simp [h0, h1]
  by_cases h2 : j.val = 2
  · simp [h0, h1, h2]
  · have h3 : j.val = 3 := by omega
    simp [h0, h1, h2, h3]

end OFF
